import Mathlib

set_option linter.unusedVariables false

/-
Shallow embedding of the PSPEmu core: psp-core.c, psp-svc.c and
psp-dev-unknown-0x03010000.c.  Machine integers are Nat (addresses, byte
values) and Int (C status codes).  Memory buffers are lists of byte values.
The unicorn ARM engine is external to the repository; the parts of its
contract the core relies on (a RAM mapping backed by a byte buffer,
register file access, start-address based execution) are embedded
explicitly below, following the engine contract in the specification.
-/

/-- Emulation mode of a core (PSPEMUMODE in psp-cfg.h; psp-core.h itself is
not part of the sources, the constructors follow the cfg header and the
specification). -/
inductive PSPCOREMODE where
  | INVALID
  | APP
  | SYSTEM
  | SYSTEM_ON_CHIP_BL
deriving DecidableEq

/-- ARM core registers exposed by the PSP core API (PSPCOREREG). -/
inductive PSPCOREREG where
  | R0 | R1 | R2 | R3 | R4 | R5 | R6 | R7
  | R8 | R9 | R10 | R11 | R12 | SP | LR | PC
deriving DecidableEq

/-- Sentinel marking an unused x86 mapping slot (NIL_X86PADDR, the all-ones
64-bit value). -/
def NIL_X86PADDR : Nat := 2 ^ 64 - 1

/-- SRAM size of a PSP core (the _256K constant in psp-core.c). -/
def PSP_SRAM_SIZE : Nat := 0x40000

/-- Cached x86 memory mapping (PSPX86MEMCACHEDMAPPING in psp-core.c).  The
local cache buffer is an optional byte list (none models a NULL pvMapping
pointer). -/
structure PSPX86MEMCACHEDMAPPING where
  PhysX86AddrBase : Nat
  PspAddrBase4K : Nat
  PspAddrBase : Nat
  PspAddrCached : Nat
  PspAddrHighestWritten : Nat
  cbMapped : Nat
  cbMapped4K : Nat
  cbAlloc : Nat
  pvMapping : Option (List Nat)

/-- A memory region installed in the engine (through uc_mem_map_ptr),
recording base, size and protection. -/
structure UcRegion where
  base : Nat
  size : Nat
  readable : Bool
  writable : Bool

/-- A single PSP core (PSPCOREINT in psp-core.c).  The engine state the
core owns (register file, program counter, the backing SRAM buffer and the
trace of start addresses handed to uc_emu_start) is inlined. -/
structure PSPCOREINT where
  enmMode : PSPCOREMODE
  sram : List Nat
  regions : List UcRegion
  regs : PSPCOREREG → Nat
  pc : Nat
  startTrace : List Nat
  idCcd : Nat
  PspAddrExecNext : Nat
  aX86Mappings : List PSPX86MEMCACHEDMAPPING

/-- The proxy PSP channel (PSPPROXYCTX of libpspproxy, external to the
repository; embedded from the proxy contract in the specification).  It
records the proxy memory view, the trace of proxied syscalls, and whether
proxied syscalls fail. -/
structure PSPPROXYCTX where
  mem : Nat → Nat
  svcTrace : List (Nat × Nat × Nat × Nat × Nat)
  failSvc : Bool

/-- Emulated supervisor firmware state (PSPSVCINT in psp-svc.c).  The core
handle is dereferenced into the core state itself. -/
structure PSPSVCINT where
  core : PSPCOREINT
  proxy : PSPPROXYCTX
  cbStateRegion : Nat

/-- Errno value returned by PSPEmuCoreCreate on allocation failure
(OutOfMemory; the numeric value is the usual errno ENOMEM). -/
def ENOMEM : Int := 12

/-- Errno value returned by PSPEmuCoreCreate when uc_open fails
(EngineInit; the numeric value is the usual errno EINVAL). -/
def EINVAL : Int := 22

/-- Little-endian byte decomposition of a 32-bit value. -/
def leBytes32 (v : Nat) : List Nat :=
  [v % 256, v / 256 % 256, v / 65536 % 256, v / 16777216 % 256]

/-- Little-endian recomposition of a byte list into a value. -/
def leU32 (bs : List Nat) : Nat :=
  bs.foldr (fun b acc => b + 256 * acc) 0

/-- Update of a register file, as performed through uc_reg_write. -/
def ucRegWrite (regs : PSPCOREREG → Nat) (r : PSPCOREREG) (v : Nat) :
    PSPCOREREG → Nat :=
  fun x => if x = r then v else regs x

/-- Overwrite of a byte buffer at a given offset, as performed by
uc_mem_write landing in the RAM backing. -/
def ucMemWriteBytes (s : List Nat) (a : Nat) (d : List Nat) : List Nat :=
  s.take a ++ d ++ s.drop (a + d.length)

/-- PSPEmuCoreSetReg: writes a register through the engine; valid registers
always succeed. -/
def PSPEmuCoreSetReg (c : PSPCOREINT) (r : PSPCOREREG) (v : Nat) :
    PSPCOREINT × Int :=
  ({ c with regs := ucRegWrite c.regs r v }, 0)

/-- PSPEmuCoreQueryReg: reads a register through the engine; valid
registers always succeed. -/
def PSPEmuCoreQueryReg (c : PSPCOREINT) (r : PSPCOREREG) : Nat × Int :=
  (c.regs r, 0)

/-- PSPEmuCoreMemWrite: delegates to uc_mem_write.  On a freshly created
core the only installed mapping is the SRAM at 0; a write succeeds exactly
when it falls inside it, anything else is a bad address. -/
def PSPEmuCoreMemWrite (c : PSPCOREINT) (a : Nat) (d : List Nat) :
    PSPCOREINT × Int :=
  if a + d.length ≤ c.sram.length then
    ({ c with sram := ucMemWriteBytes c.sram a d }, 0)
  else (c, -1)

/-- PSPEmuCoreMemRead: delegates to uc_mem_read; dual of the write above. -/
def PSPEmuCoreMemRead (c : PSPCOREINT) (a len : Nat) :
    Option (List Nat) × Int :=
  if a + len ≤ c.sram.length then (some ((c.sram.drop a).take len), 0)
  else (none, -1)

/-- PSPEmuCoreMemAddRegion: the source body is a todo stub that returns -1
unconditionally and touches nothing. -/
def PSPEmuCoreMemAddRegion (c : PSPCOREINT) (AddrStart cbRegion : Nat) :
    PSPCOREINT × Int :=
  (c, -1)

/-- PSPEmuCoreExecSetStartAddr: records the next execution start address. -/
def PSPEmuCoreExecSetStartAddr (c : PSPCOREINT) (AddrExecStart : Nat) :
    PSPCOREINT × Int :=
  ({ c with PspAddrExecNext := AddrExecStart }, 0)

/-- The engine executing count straight-line ARM instructions from a start
address (uc_emu_start): the program counter advances by four bytes per
instruction and the start address handed to the engine is recorded; the
budget being exhausted is a benign return (status 0). -/
def ucEmuStart (c : PSPCOREINT) (startAddr untilAddr timeout count : Nat) :
    PSPCOREINT × Int :=
  ({ c with
      pc := startAddr + 4 * count,
      startTrace := c.startTrace ++ [startAddr] }, 0)

/-- PSPEmuCoreExecRun: starts the engine at PspAddrExecNext (which it does
not modify), with the until address hardcoded to 0xffffffff as in the
source. -/
def PSPEmuCoreExecRun (c : PSPCOREINT) (cInsnExec msExec : Nat) :
    PSPCOREINT × Int :=
  ucEmuStart c c.PspAddrExecNext 0xffffffff msExec cInsnExec

/-- An x86 mapping slot as calloc leaves it in PSPEmuCoreCreate: every
field zero (note that a zeroed PhysX86AddrBase differs from
NIL_X86PADDR). -/
def zeroedMapping : PSPX86MEMCACHEDMAPPING :=
  { PhysX86AddrBase := 0, PspAddrBase4K := 0, PspAddrBase := 0,
    PspAddrCached := 0, PspAddrHighestWritten := 0, cbMapped := 0,
    cbMapped4K := 0, cbAlloc := 0, pvMapping := none }

/-- Allocation and engine oracle for PSPEmuCoreCreate: whether the calloc
of the core structure, the calloc of the SRAM blob and uc_open succeed. -/
structure ALLOCORACLE where
  fCoreAllocOk : Bool
  fSramAllocOk : Bool
  fUcOpenOk : Bool

/-- Result of PSPEmuCoreCreate: the handle (none on failure), the status
code, and the resources still held after the call on a failure path (the
source frees the core structure and the SRAM blob on every failure
path, so this list is empty there; on success ownership moves into the
handle). -/
structure CREATERESULT where
  hCore : Option PSPCOREINT
  rc : Int
  leaked : List String

/-- PSPEmuCoreCreate: calloc the (zeroed) core structure, calloc the
(zeroed) 256 KiB SRAM, open the ARM engine, then map the SRAM
read/write at PSP address 0 (uc_mem_map_ptr; the source spells the
core pointer pPspCore at that call, an evident typo for pThis).  Each
failure path frees what was allocated before it and returns ENOMEM
(allocation) or EINVAL (uc_open). -/
def PSPEmuCoreCreate (o : ALLOCORACLE) (enmMode : PSPCOREMODE) :
    CREATERESULT :=
  if o.fCoreAllocOk then
    if o.fSramAllocOk then
      if o.fUcOpenOk then
        { hCore := some
            { enmMode := enmMode,
              sram := List.replicate PSP_SRAM_SIZE 0,
              regions := [{ base := 0, size := PSP_SRAM_SIZE,
                            readable := true, writable := true }],
              regs := fun _ => 0,
              pc := 0,
              startTrace := [],
              idCcd := 0,
              PspAddrExecNext := 0,
              aX86Mappings := List.replicate 8 zeroedMapping },
          rc := 0, leaked := [] }
      else
        { hCore := none, rc := EINVAL, leaked := [] }
    else
      { hCore := none, rc := ENOMEM, leaked := [] }
  else
    { hCore := none, rc := ENOMEM, leaked := [] }

/-- Syscall id used by pspEmuSvcAppExit for the proxied state-buffer
request (SVC_GET_STATE_BUFFER from psp-fw/svc_id.h, which is not under
the sources; the concrete number is immaterial to the claims). -/
def SVC_GET_STATE_BUFFER : Nat := 0x3c

/-- PSPProxyCtxPspSvcCall: records the proxied syscall and returns the
proxy status (out value) together with the channel status code, which
fails when the channel is marked failing. -/
def PSPProxyCtxPspSvcCall (p : PSPPROXYCTX) (idx a0 a1 a2 a3 : Nat) :
    PSPPROXYCTX × Nat × Int :=
  ({ p with svcTrace := p.svcTrace ++ [(idx, a0, a1, a2, a3)] }, 0,
   if p.failSvc then -1 else 0)

/-- Syscall handler shape (FNPSPSVCHANDLER): state and syscall index in,
updated state and C int status out. -/
abbrev FNPSPSVCHANDLER := PSPSVCINT → Nat → PSPSVCINT × Int

/-- Syscall 0x00 (pspEmuSvcAppExit): requests a proxy state buffer of size
cbStateRegion; the channel status is only logged; returns 0. -/
def pspEmuSvcAppExit : FNPSPSVCHANDLER := fun pThis idxSyscall =>
  let r := PSPProxyCtxPspSvcCall pThis.proxy SVC_GET_STATE_BUFFER
             pThis.cbStateRegion 0 0 0
  ({ pThis with proxy := r.1 }, 0)

/-- Syscall 0x01 (pspEmuSvcAppInit): reads R2, tries to map the 2 x 4 KiB
stack at 0x50000 through PSPEmuCoreMemAddRegion, then writes the stack
top 0x52000 to the address from R2 and status uSts to R0 - but only
while the running status rc stays 0; a failing step makes the final
SetReg conditional skip, leaving R0 untouched and returning the
nonzero rc. -/
def pspEmuSvcAppInit : FNPSPSVCHANDLER := fun pThis idxSyscall =>
  let uStackTop : Nat := 0x52000
  let q := PSPEmuCoreQueryReg pThis.core PSPCOREREG.R2
  let UsrPtrStackAddr := q.1
  let step :=
    if q.2 = 0 then
      let m := PSPEmuCoreMemAddRegion pThis.core 0x50000 (2 * 4096)
      if m.2 = 0 then
        let w := PSPEmuCoreMemWrite m.1 UsrPtrStackAddr (leBytes32 uStackTop)
        (w.1, (0 : Nat), w.2)
      else
        (m.1, (0x9 : Nat), m.2)
    else
      (pThis.core, (0x9 : Nat), q.2)
  if step.2.2 = 0 then
    let s := PSPEmuCoreSetReg step.1 PSPCOREREG.R0 step.2.1
    ({ pThis with core := s.1 }, s.2)
  else
    ({ pThis with core := step.1 }, step.2.2)

/-- Syscall 0x03 (pspEmuSvcSmnMapEx): the whole body is compiled out with
an if-0 block in the source; the call has no effect (the C return value
is indeterminate and modelled as 0). -/
def pspEmuSvcSmnMapEx : FNPSPSVCHANDLER := fun pThis idxSyscall => (pThis, 0)

/-- Syscall 0x04 (pspEmuSvcSmnMap): empty body in the source; no effect. -/
def pspEmuSvcSmnMap : FNPSPSVCHANDLER := fun pThis idxSyscall => (pThis, 0)

/-- Syscall 0x05 (pspEmuSvcSmnUnmap): body compiled out; no effect. -/
def pspEmuSvcSmnUnmap : FNPSPSVCHANDLER := fun pThis idxSyscall => (pThis, 0)

/-- Syscall 0x06 (pspEmuSvcDbgLog): body compiled out; no effect. -/
def pspEmuSvcDbgLog : FNPSPSVCHANDLER := fun pThis idxSyscall => (pThis, 0)

/-- Syscall 0x07 (pspEmuSvcX86MemMap): body compiled out; no effect. -/
def pspEmuSvcX86MemMap : FNPSPSVCHANDLER := fun pThis idxSyscall => (pThis, 0)

/-- Syscall 0x08 (pspEmuSvcX86MemUnmap): the body that would sync the
written range back to the proxy, unmap, free the cache buffer and clear
the slot is compiled out with an if-0 block; the call has no effect. -/
def pspEmuSvcX86MemUnmap : FNPSPSVCHANDLER := fun pThis idxSyscall =>
  (pThis, 0)

/-- Syscall 0x09 (pspEmuSvcX86CopyToPsp): body compiled out; no effect. -/
def pspEmuSvcX86CopyToPsp : FNPSPSVCHANDLER := fun pThis idxSyscall =>
  (pThis, 0)

/-- Syscall 0x0a (pspEmuSvcX86CopyFromPsp): body compiled out; no
effect. -/
def pspEmuSvcX86CopyFromPsp : FNPSPSVCHANDLER := fun pThis idxSyscall =>
  (pThis, 0)

/-- Syscall 0x25 (pspEmuSvcX86MemMapEx): the body that would proxy the map
call, install a cached window and write the mapped address to R0 is
compiled out with an if-0 block; the call has no effect. -/
def pspEmuSvcX86MemMapEx : FNPSPSVCHANDLER := fun pThis idxSyscall =>
  (pThis, 0)

/-- Syscall 0x28 (pspEmuSvcSmuMsg): body compiled out; no effect. -/
def pspEmuSvcSmuMsg : FNPSPSVCHANDLER := fun pThis idxSyscall => (pThis, 0)

/-- Syscall 0x32 (pspEmuSvc0x32Unk): body compiled out; no effect. -/
def pspEmuSvc0x32Unk : FNPSPSVCHANDLER := fun pThis idxSyscall => (pThis, 0)

/-- Syscall 0x33 (pspEmuSvc0x33Unk): body compiled out; no effect. -/
def pspEmuSvc0x33Unk : FNPSPSVCHANDLER := fun pThis idxSyscall => (pThis, 0)

/-- Syscall 0x35 (pspEmuSvc0x35Unk): installed in the dispatch table, body
compiled out; no effect. -/
def pspEmuSvc0x35Unk : FNPSPSVCHANDLER := fun pThis idxSyscall => (pThis, 0)

/-- Syscall 0x36 (pspEmuSvc0x36Unk): installed in the dispatch table, body
compiled out; no effect. -/
def pspEmuSvc0x36Unk : FNPSPSVCHANDLER := fun pThis idxSyscall => (pThis, 0)

/-- Syscall 0x38 (pspEmuSvc0x38Unk): body compiled out; no effect. -/
def pspEmuSvc0x38Unk : FNPSPSVCHANDLER := fun pThis idxSyscall => (pThis, 0)

/-- Syscall 0x39 (pspEmuSvcRng): body compiled out; no effect. -/
def pspEmuSvcRng : FNPSPSVCHANDLER := fun pThis idxSyscall => (pThis, 0)

/-- Syscall 0x3c (pspEmuSvcQuerySaveStateRegion): body compiled out; no
effect. -/
def pspEmuSvcQuerySaveStateRegion : FNPSPSVCHANDLER := fun pThis
    idxSyscall => (pThis, 0)

/-- Syscall 0x41 (pspEmuSvc0x41Unk): body compiled out; no effect. -/
def pspEmuSvc0x41Unk : FNPSPSVCHANDLER := fun pThis idxSyscall => (pThis, 0)

/-- Syscall 0x42 (pspEmuSvc0x42Unk): body compiled out; no effect. -/
def pspEmuSvc0x42Unk : FNPSPSVCHANDLER := fun pThis idxSyscall => (pThis, 0)

/-- Syscall 0x48 (pspEmuSvcQuerySmmRegion): body compiled out; no
effect. -/
def pspEmuSvcQuerySmmRegion : FNPSPSVCHANDLER := fun pThis idxSyscall =>
  (pThis, 0)

/-- The syscall handler table (g_apfnSyscalls): 0x49 entries indexed by
syscall number, none marking a NULL slot. -/
def g_apfnSyscalls : List (Option FNPSPSVCHANDLER) :=
  [ some pspEmuSvcAppExit,                -- 0x00
    some pspEmuSvcAppInit,                -- 0x01
    none,                                 -- 0x02
    some pspEmuSvcSmnMapEx,               -- 0x03
    some pspEmuSvcSmnMap,                 -- 0x04
    some pspEmuSvcSmnUnmap,               -- 0x05
    some pspEmuSvcDbgLog,                 -- 0x06
    some pspEmuSvcX86MemMap,              -- 0x07
    some pspEmuSvcX86MemUnmap,            -- 0x08
    some pspEmuSvcX86CopyToPsp,           -- 0x09
    some pspEmuSvcX86CopyFromPsp,         -- 0x0a
    none, none, none, none, none,         -- 0x0b - 0x0f
    none, none, none, none, none,         -- 0x10 - 0x14
    none, none, none, none, none,         -- 0x15 - 0x19
    none, none, none, none, none,         -- 0x1a - 0x1e
    none, none, none, none, none,         -- 0x1f - 0x23
    none,                                 -- 0x24
    some pspEmuSvcX86MemMapEx,            -- 0x25
    none, none,                           -- 0x26 - 0x27
    some pspEmuSvcSmuMsg,                 -- 0x28
    none, none, none, none, none,         -- 0x29 - 0x2d
    none, none, none, none,               -- 0x2e - 0x31
    some pspEmuSvc0x32Unk,                -- 0x32
    some pspEmuSvc0x33Unk,                -- 0x33
    none,                                 -- 0x34
    some pspEmuSvc0x35Unk,                -- 0x35
    some pspEmuSvc0x36Unk,                -- 0x36
    none,                                 -- 0x37
    some pspEmuSvc0x38Unk,                -- 0x38
    some pspEmuSvcRng,                    -- 0x39
    none, none,                           -- 0x3a - 0x3b
    some pspEmuSvcQuerySaveStateRegion,   -- 0x3c
    none, none, none, none,               -- 0x3d - 0x40
    some pspEmuSvc0x41Unk,                -- 0x41
    some pspEmuSvc0x42Unk,                -- 0x42
    none, none, none, none, none,         -- 0x43 - 0x47
    some pspEmuSvcQuerySmmRegion ]        -- 0x48

/-- Default path of the dispatcher for an unknown syscall: write status
0x9 (PSPSTATUS_GENERAL_MEMORY_ERROR) to R0 and return the SetReg
status. -/
def pspEmuSvcDefault (pThis : PSPSVCINT) : PSPSVCINT × Int :=
  let s := PSPEmuCoreSetReg pThis.core PSPCOREREG.R0 0x9
  ({ pThis with core := s.1 }, s.2)

/-- PSPEmuSvcStateCall: if the index is inside the table and the slot is
non-NULL, invoke the handler; otherwise take the not-implemented
default. -/
def PSPEmuSvcStateCall (pThis : PSPSVCINT) (idxSyscall : Nat) :
    PSPSVCINT × Int :=
  match g_apfnSyscalls.get? idxSyscall with
  | some (some pfnHandler) => pfnHandler pThis idxSyscall
  | _ => pspEmuSvcDefault pThis

/-- Decidable test for the dispatcher taking the not-implemented default:
true when the index is beyond the table or the slot is NULL. -/
def svcSlotEmpty (idxSyscall : Nat) : Bool :=
  match g_apfnSyscalls.get? idxSyscall with
  | some (some _) => false
  | _ => true

/-- Read handler of the unknown device (pspDevUnkMmioRead): at device
offset 0x104 the 32-bit value 0x100 is stored into the output buffer
(the on-chip bootloader polls bit 8 there); every other offset leaves
the buffer untouched. -/
def pspDevUnkMmioRead (offMmio : Nat) (cbRead : Nat) (pvVal : List Nat) :
    List Nat :=
  if offMmio = 0x104 then leBytes32 0x100 ++ pvVal.drop 4 else pvVal

/-- Write handler of the unknown device (pspDevUnkMmioWrite): only logs;
no state. -/
def pspDevUnkMmioWrite (offMmio : Nat) (cbWrite : Nat)
    (pvVal : List Nat) : Unit := ()

/-- Device registration record (PSPMMIODEVREG). -/
structure PSPMMIODEVREG where
  pszName : String
  pszDesc : String
  cbInstance : Nat
  cbMmio : Nat
  pfnMmioRead : Nat → Nat → List Nat → List Nat
  pfnMmioWrite : Nat → Nat → List Nat → Unit

/-- Registration of the unknown device (g_MmioDevRegUnk0x03010000): a
4096 byte MMIO region with the handlers above. -/
def g_MmioDevRegUnk0x03010000 : PSPMMIODEVREG :=
  { pszName := "unk-0x030100000",
    pszDesc := "Unknown device starting at 0x030100000",
    cbInstance := 1,
    cbMmio := 4096,
    pfnMmioRead := pspDevUnkMmioRead,
    pfnMmioWrite := pspDevUnkMmioWrite }

/-- Modelled from the spec: the PSP base address at which the CCD
registers the unknown device (the device instantiation code is not
under the sources; the specification fixes the base at 0x03010000). -/
def unkDevMmioBase : Nat := 0x03010000

/-- Modelled from the spec: the I/O manager (psp-iom.c is not under the
sources) zero-fills the output buffer, then lets the device read
handler overwrite bytes; untouched bytes therefore read as zero. -/
def pspEmuIomMmioRead (pfnRead : Nat → Nat → List Nat → List Nat)
    (offMmio cbRead : Nat) : List Nat :=
  pfnRead offMmio cbRead (List.replicate cbRead 0)

/-- An all-zero register file, as after core creation. -/
def regsZero : PSPCOREREG → Nat := fun _ => 0

/-- A quiescent proxy channel with empty memory and trace. -/
def proxyZero : PSPPROXYCTX :=
  { mem := fun _ => 0, svcTrace := [], failSvc := false }

/-- A minimal core state used as a concrete input (registers and SRAM
zero; SRAM kept empty because the claims evaluated on it never touch
it). -/
def coreZero : PSPCOREINT :=
  { enmMode := PSPCOREMODE.APP, sram := [], regions := [],
    regs := regsZero, pc := 0, startTrace := [], idCcd := 0,
    PspAddrExecNext := 0,
    aX86Mappings := List.replicate 8 zeroedMapping }

/-- A minimal supervisor state over coreZero. -/
def svcZero : PSPSVCINT :=
  { core := coreZero, proxy := proxyZero, cbStateRegion := 0 }

/-- Concrete AppInit input: R2 holds the user stack-slot pointer 0x51FFC
and R0 a recognizable non-status value. -/
def svcAppInitInput : PSPSVCINT :=
  { svcZero with
    core := { coreZero with
      regs := fun r =>
        if r = PSPCOREREG.R2 then 0x51FFC
        else if r = PSPCOREREG.R0 then 0x7777 else 0 } }

/-- Concrete input for the failure-policy claim: all registers zero, a
failing proxy channel, and a nonzero state-region size. -/
def svcPolicyInput : PSPSVCINT :=
  { core := coreZero,
    proxy := { proxyZero with failSvc := true },
    cbStateRegion := 0x100 }

/-- A live x86 window: slot in use (base differs from NIL_X86PADDR) with
a written watermark above the PSP base. -/
def liveMapping : PSPX86MEMCACHEDMAPPING :=
  { PhysX86AddrBase := 0x30000000, PspAddrBase4K := 0x2000,
    PspAddrBase := 0x2000, PspAddrCached := 0x3000,
    PspAddrHighestWritten := 0x2100, cbMapped := 0x10000,
    cbMapped4K := 0x10000, cbAlloc := 0x10000,
    pvMapping := some (List.replicate 8 0xAB) }

/-- Concrete X86MemUnmap input: slot 0 live, R0 holding its PSP base. -/
def svcUnmapInput : PSPSVCINT :=
  { svcZero with
    core := { coreZero with
      regs := fun r => if r = PSPCOREREG.R0 then 0x2000 else 0,
      aX86Mappings := liveMapping :: List.replicate 7 zeroedMapping } }

/-- An x86 mapping slot marked free with the NIL sentinel. -/
def nilMapping : PSPX86MEMCACHEDMAPPING :=
  { zeroedMapping with PhysX86AddrBase := NIL_X86PADDR }

/-- Concrete X86MemMapEx input: all eight slots free, registers zero. -/
def svcMapExInput : PSPSVCINT :=
  { svcZero with
    core := { coreZero with
      aX86Mappings := List.replicate 8 nilMapping } }

/-- A core with a full-size zeroed SRAM, as PSPEmuCoreCreate produces. -/
def coreFullSram : PSPCOREINT :=
  { coreZero with
    sram := List.replicate PSP_SRAM_SIZE 0,
    regions := [{ base := 0, size := PSP_SRAM_SIZE,
                  readable := true, writable := true }] }

/-- Helper: dropping the length of the left part of an append yields the
right part. -/
theorem list_drop_len_append (l1 l2 : List Nat) :
    (l1 ++ l2).drop l1.length = l2 := by
  induction l1 with
  | nil => rfl
  | cons x xs ih => exact ih

/-- Helper: taking the length of the left part of an append yields the
left part. -/
theorem list_take_len_append (l1 l2 : List Nat) :
    (l1 ++ l2).take l1.length = l1 := by
  induction l1 with
  | nil => rfl
  | cons x xs ih => simp [ih]

/-- Helper: an in-bounds buffer overwrite preserves the buffer length. -/
theorem writeBytes_length (s : List Nat) (a : Nat) (P : List Nat)
    (h : a + P.length ≤ s.length) :
    (ucMemWriteBytes s a P).length = s.length := by
  unfold ucMemWriteBytes
  rw [List.length_append, List.length_append, List.length_take,
    List.length_drop]
  omega

/-- Helper: reading back the overwritten range of a buffer returns the
written data. -/
theorem slice_of_writeBytes (s : List Nat) (a : Nat) (P : List Nat)
    (h : a + P.length ≤ s.length) :
    ((ucMemWriteBytes s a P).drop a).take P.length = P := by
  unfold ucMemWriteBytes
  have h1 : (s.take a).length = a := by
    rw [List.length_take]; omega
  have h2 := list_drop_len_append (s.take a) (P ++ s.drop (a + P.length))
  rw [h1] at h2
  rw [List.append_assoc, h2]
  exact list_take_len_append P _

/-- C7: writing any byte pattern P at an address a with the whole range
inside the SRAM [0, 0x40000) of a core (as created, SRAM length
0x40000) succeeds, and reading the same range back through
PSPEmuCoreMemRead yields exactly P with status 0. -/
theorem sram_write_read_roundtrip (c : PSPCOREINT) (a : Nat) (P : List Nat)
    (hsram : c.sram.length = 0x40000) (hfit : a + P.length ≤ 0x40000) :
    (PSPEmuCoreMemWrite c a P).2 = 0 ∧
      PSPEmuCoreMemRead (PSPEmuCoreMemWrite c a P).1 a P.length =
        (some P, 0) := by
  have hle : a + P.length ≤ c.sram.length := by omega
  have hwrite : PSPEmuCoreMemWrite c a P =
      ({ c with sram := ucMemWriteBytes c.sram a P }, 0) := by
    unfold PSPEmuCoreMemWrite
    rw [if_pos hle]
  refine ⟨by rw [hwrite], ?_⟩
  rw [hwrite]
  have hlen := writeBytes_length c.sram a P hle
  have hproj : ({ c with sram := ucMemWriteBytes c.sram a P } :
      PSPCOREINT).sram = ucMemWriteBytes c.sram a P := rfl
  unfold PSPEmuCoreMemRead
  rw [hproj, if_pos (by rw [hlen]; exact hle),
    slice_of_writeBytes c.sram a P hle]

/-- Witness for C7: the round trip evaluated on a concrete core with a
full-size zeroed SRAM, pattern [1, 2, 3] at address 5. -/
theorem sram_write_read_roundtrip_witness :
    (PSPEmuCoreMemWrite coreFullSram 5 [1, 2, 3]).2 = 0 ∧
      PSPEmuCoreMemRead (PSPEmuCoreMemWrite coreFullSram 5 [1, 2, 3]).1
        5 3 = (some [1, 2, 3], 0) :=
  sram_write_read_roundtrip coreFullSram 5 [1, 2, 3]
    (by
      show (List.replicate PSP_SRAM_SIZE (0 : Nat)).length = 0x40000
      rw [List.length_replicate]
      rfl)
    (by decide)

/-- C6: PSPEmuCoreCreate either succeeds with a core whose 256 KiB SRAM is
zero-initialized and mapped read/write at [0, 0x40000), or fails with
ENOMEM when an allocation fails or EINVAL when opening the ARM engine
fails; every failure path returns no handle and holds no resources. -/
theorem PSPEmuCoreCreate_cases (o : ALLOCORACLE) (enmMode : PSPCOREMODE) :
    (o.fCoreAllocOk = true ∧ o.fSramAllocOk = true ∧ o.fUcOpenOk = true ∧
      ∃ c, (PSPEmuCoreCreate o enmMode).hCore = some c ∧
        (PSPEmuCoreCreate o enmMode).rc = 0 ∧
        c.sram = List.replicate 0x40000 0 ∧
        c.regions = [{ base := 0, size := 0x40000,
                       readable := true, writable := true }]) ∨
    ((o.fCoreAllocOk = false ∨ o.fSramAllocOk = false) ∧
      (PSPEmuCoreCreate o enmMode).hCore = none ∧
      (PSPEmuCoreCreate o enmMode).rc = ENOMEM ∧
      (PSPEmuCoreCreate o enmMode).leaked = []) ∨
    (o.fUcOpenOk = false ∧
      (PSPEmuCoreCreate o enmMode).hCore = none ∧
      (PSPEmuCoreCreate o enmMode).rc = EINVAL ∧
      (PSPEmuCoreCreate o enmMode).leaked = []) := by
  obtain ⟨a, b, c⟩ := o
  cases a
  · exact Or.inr (Or.inl ⟨Or.inl rfl, rfl, rfl, rfl⟩)
  · cases b
    · exact Or.inr (Or.inl ⟨Or.inr rfl, rfl, rfl, rfl⟩)
    · cases c
      · exact Or.inr (Or.inr ⟨rfl, rfl, rfl, rfl⟩)
      · exact Or.inl ⟨rfl, rfl, rfl, _, rfl, rfl, rfl, rfl⟩

/-- Counterexample for C1: syscall index 0x35 is absent from the defined
behavior table of the spec, yet its dispatch slot is populated (with a
handler whose body is compiled out), so invoking the dispatcher there
leaves R0 at its initial value 0 instead of writing 0x9.  Index 0x36
is populated likewise. -/
theorem svc_0x35_r0_untouched :
    (PSPEmuSvcStateCall svcZero 0x35).1.core.regs PSPCOREREG.R0 = 0 ∧
    ((0 : Nat) ≠ 0x9) ∧
    svcSlotEmpty 0x35 = false ∧ svcSlotEmpty 0x36 = false :=
  ⟨rfl, by decide, rfl, rfl⟩

/-- C1 (amended): for every syscall index whose dispatch slot is beyond
the table or NULL (this covers every index at or above 0x49 and every
empty slot, but not 0x35 and 0x36, which carry handlers), the
dispatcher terminates writing status 0x9 into R0 and returns 0. -/
theorem svc_unknown_slot_r0_0x9 (s : PSPSVCINT) (idx : Nat)
    (h : svcSlotEmpty idx = true) :
    (PSPEmuSvcStateCall s idx).1.core.regs PSPCOREREG.R0 = 0x9 ∧
      (PSPEmuSvcStateCall s idx).2 = 0 := by
  unfold PSPEmuSvcStateCall
  split
  · next pfn heq =>
      exfalso
      unfold svcSlotEmpty at h
      rw [heq] at h
      simp at h
  · next heq => exact ⟨rfl, rfl⟩

/-- Witness for C1 (amended): evaluated at index 0x7f (beyond the table)
and index 0x02 (a NULL slot). -/
theorem svc_unknown_slot_r0_0x9_witness :
    ((PSPEmuSvcStateCall svcZero 0x7f).1.core.regs PSPCOREREG.R0 = 0x9 ∧
      (PSPEmuSvcStateCall svcZero 0x7f).2 = 0) ∧
    ((PSPEmuSvcStateCall svcZero 0x02).1.core.regs PSPCOREREG.R0 = 0x9 ∧
      (PSPEmuSvcStateCall svcZero 0x02).2 = 0) :=
  ⟨svc_unknown_slot_r0_0x9 svcZero 0x7f rfl,
   svc_unknown_slot_r0_0x9 svcZero 0x02 rfl⟩

/-- C2 (code divergence): with R2 = 0x51FFC, invoking syscall 0x01 leaves
the whole supervisor state unchanged and returns -1, because the stack
mapping goes through the PSPEmuCoreMemAddRegion stub that always
fails: no region is mapped, nothing is written to the address in R2,
and R0 keeps its prior value 0x7777 instead of the claimed 0. -/
theorem appinit_stub_no_effect :
    PSPEmuSvcStateCall svcAppInitInput 0x01 = (svcAppInitInput, -1) ∧
    (PSPEmuSvcStateCall svcAppInitInput 0x01).1.core.regs
      PSPCOREREG.R0 = 0x7777 ∧
    ((0x7777 : Nat) ≠ 0) :=
  ⟨rfl, rfl, by decide⟩

/-- Counterexample for C3: the AppInit handler invocation fails
internally (the stack mapping stub fails), yet the dispatcher returns
a nonzero status and R0 is not set to 0x9. -/
theorem appinit_failure_violates_policy :
    (PSPEmuSvcStateCall svcPolicyInput 0x01).2 ≠ 0 ∧
    (PSPEmuSvcStateCall svcPolicyInput 0x01).1.core.regs
      PSPCOREREG.R0 ≠ 0x9 := by
  exact ⟨by decide, by decide⟩

/-- C3 (amended): a syscall handler that fails internally leaves every
PSP register, R0 included, unchanged; pspEmuSvcAppInit returns its
nonzero internal error, which PSPEmuSvcStateCall propagates to its
caller, while pspEmuSvcAppExit swallows a proxy failure and returns
0 - in neither case is 0x9 written to R0. -/
theorem handler_failure_actual_effects (s : PSPSVCINT) (i : Nat) :
    (pspEmuSvcAppInit s i).2 = -1 ∧
    (∀ r, (pspEmuSvcAppInit s i).1.core.regs r = s.core.regs r) ∧
    (pspEmuSvcAppInit s i).1.core.sram = s.core.sram ∧
    (PSPEmuSvcStateCall s 0x01).2 = -1 ∧
    (pspEmuSvcAppExit s i).2 = 0 ∧
    (∀ r, (pspEmuSvcAppExit s i).1.core.regs r = s.core.regs r) :=
  ⟨rfl, fun r => rfl, rfl, rfl, rfl, fun r => rfl⟩

/-- C4 (code divergence): with a live window in slot 0 (written watermark
0x2100 above its PSP base 0x2000) and R0 addressing it, invoking
syscall 0x08 changes nothing: no proxied write is issued, the window
table keeps the live slot, and its x86 base stays distinct from
NIL_X86PADDR, because the handler body is compiled out. -/
theorem x86memunmap_noop :
    (PSPEmuSvcStateCall svcUnmapInput 0x08).1 = svcUnmapInput ∧
    (PSPEmuSvcStateCall svcUnmapInput 0x08).1.proxy.svcTrace = [] ∧
    ((PSPEmuSvcStateCall svcUnmapInput 0x08).1.core.aX86Mappings.map
        fun m => m.PhysX86AddrBase) =
      0x30000000 :: List.replicate 7 0 ∧
    ((0x30000000 : Nat) ≠ NIL_X86PADDR) :=
  ⟨rfl, rfl, rfl, by decide⟩

/-- C5 (code divergence): with all eight window slots free, invoking
syscall 0x25 changes nothing: no window is installed and R0 keeps its
prior value, because the handler body is compiled out. -/
theorem x86memmapex_noop :
    (PSPEmuSvcStateCall svcMapExInput 0x25).1 = svcMapExInput ∧
    (PSPEmuSvcStateCall svcMapExInput 0x25).1.core.regs
      PSPCOREREG.R0 = 0 ∧
    ((svcMapExInput.core.aX86Mappings.map fun m => m.PhysX86AddrBase) =
      List.replicate 8 NIL_X86PADDR) :=
  ⟨rfl, rfl, by decide⟩

/-- Counterexample for C8: after exec_set_start 0x100 and a one
instruction run the program counter is 0x104, yet a second run starts
again at 0x100 (the start trace records 0x100 twice), not at the
current program counter. -/
theorem execrun_restarts_at_start_addr :
    ((PSPEmuCoreExecRun
        (PSPEmuCoreExecSetStartAddr coreZero 0x100).1 1 0).1.pc = 0x104) ∧
    ((PSPEmuCoreExecRun
        (PSPEmuCoreExecRun
          (PSPEmuCoreExecSetStartAddr coreZero 0x100).1 1 0).1
        1 0).1.startTrace = [0x100, 0x100]) ∧
    (([0x100, 0x100] : List Nat) ≠ [0x100, 0x104]) :=
  ⟨rfl, rfl, by decide⟩

/-- C8 (amended): PSPEmuCoreExecRun returns benignly (status 0) but does
not update PspAddrExecNext, so a subsequent run starts again from the
address most recently configured through PSPEmuCoreExecSetStartAddr,
not from the current program counter. -/
theorem execrun_keeps_exec_next (c : PSPCOREINT) (n m a : Nat) :
    (PSPEmuCoreExecRun c n m).1.PspAddrExecNext = c.PspAddrExecNext ∧
    (PSPEmuCoreExecRun c n m).1.startTrace =
      c.startTrace ++ [c.PspAddrExecNext] ∧
    (PSPEmuCoreExecRun c n m).2 = 0 ∧
    (PSPEmuCoreExecSetStartAddr c a).1.PspAddrExecNext = a :=
  ⟨rfl, rfl, rfl, rfl⟩

/-- C9: reading four bytes of the unknown device at PSP address
0x03010104 (device offset 0x104 for the base 0x03010000) yields
0x00000100; the device region is 0x1000 bytes; at every other offset
the device leaves the output buffer untouched, so the zero-filled
buffer of the I/O manager reads back as 0. -/
theorem unk_dev_ready_bit (off : Nat) (hne : off ≠ 0x104) :
    leU32 (pspEmuIomMmioRead g_MmioDevRegUnk0x03010000.pfnMmioRead
      (0x03010104 - unkDevMmioBase) 4) = 0x100 ∧
    g_MmioDevRegUnk0x03010000.cbMmio = 0x1000 ∧
    (∀ buf cb, pspDevUnkMmioRead off cb buf = buf) ∧
    leU32 (pspEmuIomMmioRead g_MmioDevRegUnk0x03010000.pfnMmioRead
      off 4) = 0 := by
  refine ⟨rfl, rfl, ?_, ?_⟩
  · intro buf cb
    unfold pspDevUnkMmioRead
    rw [if_neg hne]
  · show leU32 (pspDevUnkMmioRead off 4 (List.replicate 4 0)) = 0
    unfold pspDevUnkMmioRead
    rw [if_neg hne]
    rfl

/-- Witness for C9: evaluated at device offset 0x108. -/
theorem unk_dev_ready_bit_witness :
    leU32 (pspEmuIomMmioRead g_MmioDevRegUnk0x03010000.pfnMmioRead
      (0x03010104 - unkDevMmioBase) 4) = 0x100 ∧
    g_MmioDevRegUnk0x03010000.cbMmio = 0x1000 ∧
    (∀ buf cb, pspDevUnkMmioRead 0x108 cb buf = buf) ∧
    leU32 (pspEmuIomMmioRead g_MmioDevRegUnk0x03010000.pfnMmioRead
      0x108 4) = 0 :=
  unk_dev_ready_bit 0x108 (by decide)

/-- C10: PSPEmuCoreMemAddRegion fails with -1 for every core, address and
size, leaving the core untouched, and consequently every invocation of
syscall 0x01 (whose stack mapping relies on it) takes the failure
path: the whole supervisor state is unchanged and -1 is returned. -/
theorem memaddregion_always_fails (c : PSPCOREINT) (addr cb : Nat)
    (s : PSPSVCINT) :
    PSPEmuCoreMemAddRegion c addr cb = (c, -1) ∧
    PSPEmuSvcStateCall s 0x01 = (s, -1) :=
  ⟨rfl, rfl⟩
